import Mathlib

/-!
Shallow embedding of `src/searcherator/searcherator.py` (the Searcherator
async search client): rate-limit header parsing, HTTP response
classification, the credential check in the constructor, the shared
session lifecycle, the cache key, and the minimum-interval spacing logic
of `search_result`.

Python strings are Lean `String`s; Python `int` values are Lean `Int`;
Python `None`-able values are `Option`s; a raised exception is an
explicit error value.
-/

namespace Searcherator

/-- Whitespace as it occurs in HTTP header values (space, tab, CR,
LF), the characters Python `str.strip()` removes there. -/
def isPySpace (c : Char) : Bool :=
  c = ' ' || c = '\t' || c = '\n' || c = '\r'

/-- Python `str.strip()` at the character level: drop whitespace from
both ends. -/
def pyStrip (l : List Char) : List Char :=
  ((l.dropWhile isPySpace).reverse.dropWhile isPySpace).reverse

/-- Python `str.split(sep)` at the character level: always at least one
group (`''.split(',') == ['']`), separators never merged. -/
def splitChars (sep : Char) : List Char → List (List Char)
  | [] => [[]]
  | c :: cs =>
      let r := splitChars sep cs
      if c = sep then [] :: r
      else
        match r with
        | [] => [[c]]
        | g :: gs => (c :: g) :: gs

/-- Python `str.split(',')` applied to a header value. -/
def pySplit (s : String) : List (List Char) := splitChars ',' s.data

/-- Value of a nonempty all-digit character run. -/
def digitsToNatAux (acc : Nat) : List Char → Option Nat
  | [] => some acc
  | c :: cs => if c.isDigit then digitsToNatAux (acc * 10 + (c.toNat - 48)) cs else none

/-- Decimal value of a digit run; `none` when empty or any character is
not an ASCII digit. -/
def digitsToNat : List Char → Option Nat
  | [] => none
  | c :: cs => digitsToNatAux 0 (c :: cs)

/-- Python `int(s)` on an already-stripped string: an optional sign
followed by decimal digits; `none` models a raised `ValueError`.
(Underscore digit grouping and non-ASCII digits are not modelled.) -/
def pyInt : List Char → Option Int
  | [] => none
  | c :: cs =>
      if c = '+' then (digitsToNat cs).map Int.ofNat
      else if c = '-' then (digitsToNat cs).map (fun n => -(Int.ofNat n))
      else (digitsToNat (c :: cs)).map Int.ofNat

/-- The six per-instance rate-limit telemetry attributes set by
`Searcherator.__init__` (lines 136-141) and updated by
`_parse_rate_limit_headers`. -/
structure Telemetry where
  rate_limit_per_second : Option Int
  rate_limit_per_month : Option Int
  rate_remaining_per_second : Option Int
  rate_remaining_per_month : Option Int
  rate_reset_per_second : Option Int
  rate_reset_per_month : Option Int
deriving DecidableEq, Repr

/-- Telemetry as initialised by `__init__`: every field `None`. -/
def Telemetry.initial : Telemetry := ⟨none, none, none, none, none, none⟩

/-- The response headers as seen by `_parse_rate_limit_headers`: each
field is the value of `headers.get(key, '')` for the corresponding
`X-RateLimit-*` key, so an absent header is the empty string. -/
structure Headers where
  rateLimitLimit : String
  rateLimitRemaining : String
  rateLimitReset : String
deriving DecidableEq, Repr

/-- One conditional expression of `_parse_rate_limit_headers`:
`int(parts[i].strip()) if len(parts) > i and parts[i].strip() else None`.
`.error ()` models the `ValueError` raised by `int` on a malformed
value; `.ok none` is the `else None` branch (index out of range or
empty after stripping). -/
def parsePart (parts : List (List Char)) (i : Nat) : Except Unit (Option Int) :=
  match parts.get? i with
  | none => .ok none
  | some p =>
      let s := pyStrip p
      if s = [] then .ok none
      else
        match pyInt s with
        | some n => .ok (some n)
        | none => .error ()

/-- `_parse_rate_limit_headers` (lines 221-236): the six assignments run
in order inside one `try`; a `ValueError` from any `int` call jumps to
the `except` clause, leaving that field and every later field
unchanged. -/
def parseRateLimitHeaders (t : Telemetry) (h : Headers) : Telemetry :=
  let limit_parts := pySplit h.rateLimitLimit
  match parsePart limit_parts 0 with
  | .error _ => t
  | .ok v0 =>
    let t := { t with rate_limit_per_second := v0 }
    match parsePart limit_parts 1 with
    | .error _ => t
    | .ok v1 =>
      let t := { t with rate_limit_per_month := v1 }
      let remaining_parts := pySplit h.rateLimitRemaining
      match parsePart remaining_parts 0 with
      | .error _ => t
      | .ok v2 =>
        let t := { t with rate_remaining_per_second := v2 }
        match parsePart remaining_parts 1 with
        | .error _ => t
        | .ok v3 =>
          let t := { t with rate_remaining_per_month := v3 }
          let reset_parts := pySplit h.rateLimitReset
          match parsePart reset_parts 0 with
          | .error _ => t
          | .ok v4 =>
            let t := { t with rate_reset_per_second := v4 }
            match parsePart reset_parts 1 with
            | .error _ => t
            | .ok v5 => { t with rate_reset_per_month := v5 }

/-- The spec's description of header parsing ("each side is parsed
independently and a failure to parse one field must not prevent parsing
the others"): every field takes the result of its own parse, a failed
parse leaving only that field absent. Stated from the spec's words, to
be compared with `parseRateLimitHeaders`. -/
def parseRateLimitHeadersIndependent (t : Telemetry) (h : Headers) : Telemetry :=
  let limit_parts := pySplit h.rateLimitLimit
  let remaining_parts := pySplit h.rateLimitRemaining
  let reset_parts := pySplit h.rateLimitReset
  let val := fun parts i => match parsePart parts i with
    | .ok v => v
    | .error _ => none
  { t with
    rate_limit_per_second := val limit_parts 0
    rate_limit_per_month := val limit_parts 1
    rate_remaining_per_second := val remaining_parts 0
    rate_remaining_per_month := val remaining_parts 1
    rate_reset_per_second := val reset_parts 0
    rate_reset_per_month := val reset_parts 1 }

/-- The six telemetry fields in the order `_parse_rate_limit_headers`
assigns them. -/
def telemetryField (t : Telemetry) : Fin 6 → Option Int
  | 0 => t.rate_limit_per_second
  | 1 => t.rate_limit_per_month
  | 2 => t.rate_remaining_per_second
  | 3 => t.rate_remaining_per_month
  | 4 => t.rate_reset_per_second
  | 5 => t.rate_reset_per_month

/-- The header parts and part index feeding the i-th assignment of
`_parse_rate_limit_headers`. -/
def fieldSource (h : Headers) : Fin 6 → List (List Char) × Nat
  | 0 => (pySplit h.rateLimitLimit, 0)
  | 1 => (pySplit h.rateLimitLimit, 1)
  | 2 => (pySplit h.rateLimitRemaining, 0)
  | 3 => (pySplit h.rateLimitRemaining, 1)
  | 4 => (pySplit h.rateLimitReset, 0)
  | 5 => (pySplit h.rateLimitReset, 1)

/-- Whether the i-th assignment's `int` call raises `ValueError`. -/
def parseFailsAt (h : Headers) (i : Fin 6) : Bool :=
  match parsePart (fieldSource h i).1 (fieldSource h i).2 with
  | .error _ => true
  | .ok _ => false

/-- Index of the first assignment whose `int` call raises, if any. -/
def firstParseFailure (h : Headers) : Option (Fin 6) :=
  if parseFailsAt h 0 then some 0
  else if parseFailsAt h 1 then some 1
  else if parseFailsAt h 2 then some 2
  else if parseFailsAt h 3 then some 3
  else if parseFailsAt h 4 then some 4
  else if parseFailsAt h 5 then some 5
  else none

/-- The exception classes the client raises (`SearcheratorAuthError`,
`SearcheratorRateLimitError`, `SearcheratorTimeoutError`,
`SearcheratorAPIError`), each with the message passed to its
constructor. There is no further class: a missing credential and a 401
both raise `SearcheratorAuthError`. -/
inductive SErr where
  | authError (msg : String)
  | rateLimitError (msg : String) (t : Telemetry)
  | timeoutError (msg : String)
  | apiError (status : Nat) (msg : String)
deriving DecidableEq, Repr

/-- Python `isinstance(e, SearcheratorAuthError)`. -/
def SErr.isAuthError : SErr → Bool
  | .authError _ => true
  | _ => false

/-- Python `isinstance(e, SearcheratorTimeoutError)`. -/
def SErr.isTimeoutError : SErr → Bool
  | .timeoutError _ => true
  | _ => false

/-- Python `isinstance(e, SearcheratorAPIError)`. -/
def SErr.isApiError : SErr → Bool
  | .apiError _ _ => true
  | _ => false

/-- Result of one `_search_api` call: either the returned document or
the exception raised. `Doc` is the opaque parsed JSON document. -/
inductive Outcome (Doc : Type) where
  | success (doc : Doc)
  | failure (e : SErr)
deriving DecidableEq, Repr

/-- `_handle_response_status` (lines 238-254): raise by status code.
`t` is the instance telemetry at call time (just written by
`_parse_rate_limit_headers`), passed into the rate-limit error. -/
def handleResponseStatus (t : Telemetry) (status : Nat) (error_text : String) : SErr :=
  if status = 401 then .authError "Invalid API key"
  else if status = 429 then .rateLimitError "API rate limit exceeded" t
  else .apiError status error_text

/-- What `await response.json()` produces on a 200 response: the parsed
document; an `aiohttp.ClientError` with detail `d` (wrong content type,
connection lost mid-body — caught by the second `except` clause); a
`json.JSONDecodeError` with message `d` — a `ValueError`, which neither
`except asyncio.TimeoutError` nor `except aiohttp.ClientError` catches;
or an `asyncio.TimeoutError` during the read. -/
inductive JsonRead (Doc : Type) where
  | parsed (doc : Doc)
  | clientError (detail : String)
  | decodeError (detail : String)
  | timedOut
deriving DecidableEq, Repr

/-- What `await response.text()` produces on a non-200 response: the
body text, an `aiohttp.ClientError` during the read, or an
`asyncio.TimeoutError` during the read. -/
inductive TextRead where
  | ok (text : String)
  | clientError (detail : String)
  | timedOut
deriving DecidableEq, Repr

/-- An HTTP response as `_search_api` consumes it: status code, the
rate-limit headers, and the result of the body read the branch taken
performs (`response.json()` on 200, `response.text()` otherwise). -/
structure HttpResponse (Doc : Type) where
  status : Nat
  headers : Headers
  jsonBody : JsonRead Doc
  textRead : TextRead

/-- What `session.get` inside the `try` of `_search_api` produces: a
response, an `asyncio.TimeoutError`, or an `aiohttp.ClientError` raised
before any response (DNS failure, connection reset, ...) with its
string rendering. -/
inductive RequestResult (Doc : Type) where
  | response (r : HttpResponse Doc)
  | timeout
  | clientError (detail : String)

/-- How one `_search_api` call ends: with a return value or a raised
exception of the Searcherator taxonomy, or with an exception from
outside the taxonomy escaping uncaught (the `json.JSONDecodeError`
case). -/
inductive ApiCall (Doc : Type) where
  | typed (o : Outcome Doc)
  | uncaught (detail : String)
deriving DecidableEq, Repr

/-- Whether the call ended inside the typed taxonomy. -/
def ApiCall.isTyped {Doc : Type} : ApiCall Doc → Bool
  | .typed _ => true
  | .uncaught _ => false

/-- Whether the call returned a document. -/
def ApiCall.isSuccess {Doc : Type} : ApiCall Doc → Bool
  | .typed (.success _) => true
  | _ => false

/-- The message of `SearcheratorTimeoutError` (line 275). -/
def timeoutMsg (timeoutS : Int) : String :=
  "Request timed out after " ++ toString timeoutS ++ " seconds"

/-- `_search_api` (lines 256-277) from the point the request result is
known: how the call ends, the updated instance telemetry, and whether
`json_cache_save` was called. `timeoutS` is `self.timeout`. An
`asyncio.TimeoutError` or `aiohttp.ClientError` raised anywhere in the
`try` is mapped by its `except` clause; a `json.JSONDecodeError` from
`response.json()` matches neither clause and escapes. -/
def searchApi {Doc : Type} (t0 : Telemetry) (timeoutS : Int) (res : RequestResult Doc) :
    ApiCall Doc × Telemetry × Bool :=
  match res with
  | .timeout =>
      (.typed (.failure (.timeoutError (timeoutMsg timeoutS))), t0, false)
  | .clientError d =>
      (.typed (.failure (.apiError 0 ("Network error: " ++ d))), t0, false)
  | .response r =>
      let t := parseRateLimitHeaders t0 r.headers
      if r.status = 200 then
        match r.jsonBody with
        | .parsed doc => (.typed (.success doc), t, true)
        | .clientError d => (.typed (.failure (.apiError 0 ("Network error: " ++ d))), t, false)
        | .decodeError d => (.uncaught d, t, false)
        | .timedOut => (.typed (.failure (.timeoutError (timeoutMsg timeoutS))), t, false)
      else
        match r.textRead with
        | .ok txt => (.typed (.failure (handleResponseStatus t r.status txt)), t, false)
        | .clientError d => (.typed (.failure (.apiError 0 ("Network error: " ++ d))), t, false)
        | .timedOut => (.typed (.failure (.timeoutError (timeoutMsg timeoutS))), t, false)

/-- Python `a or os.getenv("BRAVE_API_KEY")` in `__init__` line 125: an
explicit non-empty string wins, else the environment value (`none` when
the variable is unset). -/
def initApiKey (api_key env_key : Option String) : Option String :=
  match api_key with
  | some s => if s = "" then env_key else some s
  | none => env_key

/-- The message of the exception `__init__` raises when no credential
is found. -/
def missingKeyMsg : String :=
  "api_key is required. Set BRAVE_API_KEY environment variable or pass api_key parameter."

/-- The credential check of `Searcherator.__init__` (lines 125-128):
the resolved key, or the raised exception. No network action occurs in
`__init__`. -/
def searcheratorInit (api_key env_key : Option String) : Except SErr String :=
  match initApiKey api_key env_key with
  | none => .error (.authError missingKeyMsg)
  | some k => .ok k

/-- The per-query fields of a `Searcherator` instance relevant to
caching and the request (set in `__init__`, lines 130-135). -/
structure Descriptor where
  search_term : String
  num_results : Int
  country : Option String
  language : Option String
  spellcheck : Bool
  timeout : Int
deriving DecidableEq, Repr

/-- Python `str(x)` for an `str | None` value as an f-string renders
it: `None` prints as `"None"`. -/
def pyStrOpt : Option String → String
  | some s => s
  | none => "None"

/-- The cache key of `__init__` line 142:
`data_id=f"{search_term} ({language} {country} {num_results})"`. -/
def descriptorKey (d : Descriptor) : String :=
  d.search_term ++ " (" ++ pyStrOpt d.language ++ " " ++ pyStrOpt d.country ++ " "
    ++ toString d.num_results ++ ")"

/-- The external keyed cache store, as an association list from cache
key to stored document (most recent write first). -/
def Cache (Doc : Type) := List (String × Doc)

/-- Lookup in the external cache. -/
def Cache.lookup {Doc : Type} (c : Cache Doc) (k : String) : Option Doc :=
  List.lookup k c

/-- Modelled from the spec: the cache-aside layer around
`search_result` provided by the `Cached` decorator and
`json_cache_save` of the external cacherator dependency, which is not
part of this repository. The spec: consult the external cache under the
instance's key; a hit returns the cached document without a network
call; on a miss issue exactly one network call (`_search_api`, embedded
above from the source) and, exactly when it returned a document, write
the document back before returning; every other ending — a typed
failure or an uncaught exception — propagates with no write. Returns
(how the call ends, cache after the call, number of network calls
made). -/
def executeCached {Doc : Type} (c : Cache Doc) (d : Descriptor) (t0 : Telemetry)
    (res : RequestResult Doc) : ApiCall Doc × Cache Doc × Nat :=
  match c.lookup (descriptorKey d) with
  | some doc => (.typed (.success doc), c, 0)
  | none =>
      match searchApi t0 d.timeout res with
      | (.typed (.success doc), _, _) => (.typed (.success doc), (descriptorKey d, doc) :: c, 1)
      | (o, _, _) => (o, c, 1)

/-- The shared `aiohttp.ClientSession`: the timeout it was constructed
with and whether it has been closed. -/
structure Session where
  timeoutS : Int
  closed : Bool
deriving DecidableEq, Repr

/-- `_get_session` (lines 150-157), run under `_session_lock`: reuse
the shared session unless absent or closed, else construct a fresh one
with the caller's timeout. Returns (new shared reference, session
returned to the caller). -/
def getSession (s : Option Session) (timeoutS : Int) : Option Session × Session :=
  match s with
  | some sess =>
      if sess.closed then
        let fresh : Session := ⟨timeoutS, false⟩
        (some fresh, fresh)
      else (some sess, sess)
  | none =>
      let fresh : Session := ⟨timeoutS, false⟩
      (some fresh, fresh)

/-- `close_session` (lines 159-175), run under `_session_lock`: if a
session exists and is open, close it and clear the shared reference;
otherwise do nothing. -/
def closeSession (s : Option Session) : Option Session :=
  match s with
  | some sess => if sess.closed then some sess else none
  | none => none

/-- The states the shared session reference can reach from the initial
`None` through `_get_session` and `close_session`. -/
inductive ReachableSession : Option Session → Prop
  | init : ReachableSession none
  | get (s : Option Session) (timeoutS : Int) :
      ReachableSession s → ReachableSession (getSession s timeoutS).1
  | close (s : Option Session) :
      ReachableSession s → ReachableSession (closeSession s)

/-- `search_result` min-interval default: `_min_request_interval =
0.075` (seconds), as an exact rational. -/
def minRequestInterval : ℚ := 75 / 1000

/-- The sleep the spacing check performs (lines 213-215): if less than
`interval` elapsed since `last`, sleep for the remainder, else not at
all. -/
def sleepFor (interval last now : ℚ) : ℚ :=
  if now - last < interval then interval - (now - last) else 0

/-- One execution of the spacing critical section of `search_result`
(lines 211-217), which the shared `_rate_limiter_lock` serializes whole:
`enter` is the clock value read on entry (line 212), `after` the clock
value re-read after sleeping and written to `_last_request_time`
(line 217). -/
structure SpacingExec where
  enter : ℚ
  after : ℚ

/-- What the event loop guarantees about one execution of the critical
section when the shared timestamp it reads is `last`: the monotonic
clock has not gone below the previously written value, and
`asyncio.sleep` suspends for at least the requested duration before the
timestamp is re-read and written. -/
def execOk (interval last : ℚ) (e : SpacingExec) : Prop :=
  last ≤ e.enter ∧ e.enter + sleepFor interval last e.enter ≤ e.after

/-- A serialized run of spacing critical sections starting from shared
timestamp `last`: each execution reads the timestamp the previous one
wrote (the lock admits them one at a time), and each satisfies
`execOk`. -/
def traceOk (interval : ℚ) : ℚ → List SpacingExec → Prop
  | _, [] => True
  | last, e :: rest => execOk interval last e ∧ traceOk interval e.after rest

/-- Consecutive values in `prev :: xs` are at least `interval` apart. -/
def gapsOk (interval : ℚ) : ℚ → List ℚ → Prop
  | _, [] => True
  | prev, x :: xs => prev + interval ≤ x ∧ gapsOk interval x xs

/-! Helper lemmas. -/

/-- Two descriptors agreeing on the identity tuple (query text,
language, country, result count) share one cache key. -/
theorem descriptorKey_congr (d1 d2 : Descriptor)
    (hterm : d1.search_term = d2.search_term) (hlang : d1.language = d2.language)
    (hcountry : d1.country = d2.country) (hnum : d1.num_results = d2.num_results) :
    descriptorKey d1 = descriptorKey d2 := by
  unfold descriptorKey
  rw [hterm, hlang, hcountry, hnum]

/-- `json_cache_save` is called exactly on the successful branch of
`_search_api`. -/
theorem searchApi_saveFlag {Doc : Type} (t0 : Telemetry) (ts : Int) (res : RequestResult Doc) :
    (searchApi t0 ts res).2.2 = (searchApi t0 ts res).1.isSuccess := by
  rcases res with r | _ | d
  · rcases r with ⟨st, hd, jb, tx⟩
    by_cases h200 : st = 200
    · subst h200
      rcases jb with doc | d | d | _ <;> simp [searchApi, ApiCall.isSuccess]
    · rcases tx with txt | d | _ <;> simp [searchApi, h200, ApiCall.isSuccess]
  · rfl
  · rfl

/-- Every state the shared session reference reaches is either empty
or holds an open session. -/
theorem reachableSession_shape (s : Option Session) (hs : ReachableSession s) :
    s = none ∨ ∃ t, s = some ⟨t, false⟩ := by
  induction hs with
  | init => exact Or.inl rfl
  | get s t _ ih =>
      rcases ih with h0 | ⟨t0, h0⟩ <;> subst h0
      · exact Or.inr ⟨t, rfl⟩
      · exact Or.inr ⟨t0, rfl⟩
  | close s _ ih =>
      rcases ih with h0 | ⟨t0, h0⟩ <;> subst h0
      · exact Or.inl rfl
      · exact Or.inl rfl

/-- One execution of the spacing critical section writes a timestamp at
least `interval` after the one it read. -/
theorem execOk_gap (interval last : ℚ) (e : SpacingExec) (h : execOk interval last e) :
    last + interval ≤ e.after := by
  obtain ⟨h1, h2⟩ := h
  unfold sleepFor at h2
  split at h2 <;> linarith

/-! Claim theorems. -/

/-- C2 counterexample: a 200 response whose JSON-typed body fails to
decode does not yield the NetworkError-class failure the claim asserts
for every unparseable body — `response.json()` raises
`json.JSONDecodeError`, a `ValueError` caught by neither `except`
clause, so the call ends with an uncaught exception outside the typed
taxonomy; and a non-200 response whose body-text read raises an
`aiohttp.ClientError` yields the sentinel-0 API error, not the claimed
API error carrying that status and the body text. -/
theorem json200UnparseableEscapes :
    (@searchApi String Telemetry.initial 30
        (.response ⟨200, ⟨"", "", ""⟩,
          .decodeError "Expecting value: line 1 column 1 (char 0)", .ok ""⟩)).1
      = .uncaught "Expecting value: line 1 column 1 (char 0)"
    ∧ ApiCall.isTyped
        (@searchApi String Telemetry.initial 30
          (.response ⟨200, ⟨"", "", ""⟩,
            .decodeError "Expecting value: line 1 column 1 (char 0)", .ok ""⟩)).1 = false
    ∧ (@searchApi String Telemetry.initial 30
        (.response ⟨503, ⟨"", "", ""⟩, .timedOut, .clientError "Connection closed"⟩)).1
      = .typed (.failure (.apiError 0 ("Network error: " ++ "Connection closed"))) :=
  ⟨rfl, rfl, rfl⟩

/-- C2 amended: how `_search_api` ends is a pure function of the status
code, headers and body-read result: 401 yields the auth error and 429
the rate-limit error carrying the telemetry parsed from this response's
headers, provided the body-text read succeeds (`response.text()` runs
first, and its own `aiohttp.ClientError` or timeout is mapped by the
`except` clauses); 200 with a parsed body yields success; 200 whose
body read raises an `aiohttp.ClientError` yields the NetworkError-class
failure (API error with sentinel status 0); but 200 whose JSON body
fails to decode ends with the `json.JSONDecodeError` escaping uncaught;
every other status yields the API error with that status code and the
body text when the text read succeeds, and the mapped `except`-clause
outcome otherwise. -/
theorem responseClassificationRefined {Doc : Type} (t0 : Telemetry) (ts : Int)
    (r : HttpResponse Doc) :
    (searchApi t0 ts (.response r)).1 =
      if r.status = 401 then
        (match r.textRead with
         | .ok _ => .typed (.failure (.authError "Invalid API key"))
         | .clientError d => .typed (.failure (.apiError 0 ("Network error: " ++ d)))
         | .timedOut => .typed (.failure (.timeoutError (timeoutMsg ts))))
      else if r.status = 429 then
        (match r.textRead with
         | .ok _ => .typed (.failure (.rateLimitError "API rate limit exceeded"
             (parseRateLimitHeaders t0 r.headers)))
         | .clientError d => .typed (.failure (.apiError 0 ("Network error: " ++ d)))
         | .timedOut => .typed (.failure (.timeoutError (timeoutMsg ts))))
      else if r.status = 200 then
        (match r.jsonBody with
         | .parsed doc => .typed (.success doc)
         | .clientError d => .typed (.failure (.apiError 0 ("Network error: " ++ d)))
         | .decodeError d => .uncaught d
         | .timedOut => .typed (.failure (.timeoutError (timeoutMsg ts))))
      else
        (match r.textRead with
         | .ok txt => .typed (.failure (.apiError r.status txt))
         | .clientError d => .typed (.failure (.apiError 0 ("Network error: " ++ d)))
         | .timedOut => .typed (.failure (.timeoutError (timeoutMsg ts)))) := by
  rcases r with ⟨st, hd, jb, tx⟩
  by_cases h200 : st = 200
  · subst h200
    rcases jb with doc | d | d | _ <;> simp [searchApi]
  · by_cases h401 : st = 401
    · subst h401
      rcases tx with txt | d | _ <;> simp [searchApi, handleResponseStatus]
    · by_cases h429 : st = 429
      · subst h429
        rcases tx with txt | d | _ <;> simp [searchApi, handleResponseStatus]
      · rcases tx with txt | d | _ <;>
          simp [searchApi, handleResponseStatus, h200, h401, h429]

/-- C6: a transport-level failure before any status is received yields
the NetworkError outcome: an API error carrying sentinel status 0 and a
human-readable detail, distinguishable from any real status; a timeout
yields the timeout error, a class distinct from the API error class. -/
theorem transportAndTimeoutOutcomes (Doc : Type) (t0 : Telemetry) (ts : Int)
    (d m b : String) (s : Nat) :
    (@searchApi Doc t0 ts (.clientError d)).1 =
        .typed (.failure (.apiError 0 ("Network error: " ++ d)))
    ∧ (@searchApi Doc t0 ts .timeout).1 =
        .typed (.failure (.timeoutError ("Request timed out after " ++ toString ts ++ " seconds")))
    ∧ SErr.isTimeoutError (.timeoutError m) = true
    ∧ SErr.isApiError (.timeoutError m) = false
    ∧ SErr.isTimeoutError (.apiError s b) = false :=
  ⟨rfl, rfl, rfl, rfl, rfl⟩

/-- C5: on a cache miss, the parsed document is written back exactly
when the outcome is a success: `json_cache_save` runs only on the
successful branch, and the external cache after the call extends the
old one by the new document on success and is unchanged on every
failure outcome. -/
theorem successIffCacheWrite {Doc : Type} (c : Cache Doc) (d : Descriptor) (t0 : Telemetry)
    (res : RequestResult Doc) (hmiss : c.lookup (descriptorKey d) = none) :
    (searchApi t0 d.timeout res).2.2 = (searchApi t0 d.timeout res).1.isSuccess
    ∧ (executeCached c d t0 res).2.1 =
        (match (searchApi t0 d.timeout res).1 with
         | .typed (.success doc) => (descriptorKey d, doc) :: c
         | _ => c) := by
  refine ⟨searchApi_saveFlag t0 d.timeout res, ?_⟩
  unfold executeCached
  rw [hmiss]
  rcases hsa : searchApi t0 d.timeout res with ⟨o, t, b⟩
  rcases o with o | d2
  · rcases o with doc | e <;> simp
  · simp

/-- Witness for `successIffCacheWrite`: a timed-out call on an empty
cache performs no cache write and leaves the cache empty. -/
theorem successIffCacheWrite_witness :
    (@searchApi String Telemetry.initial
        (Descriptor.timeout ⟨"q", 5, some "us", some "en", false, 30⟩) .timeout).2.2
      = (@searchApi String Telemetry.initial
          (Descriptor.timeout ⟨"q", 5, some "us", some "en", false, 30⟩) .timeout).1.isSuccess
    ∧ (@executeCached String [] ⟨"q", 5, some "us", some "en", false, 30⟩
          Telemetry.initial .timeout).2.1
      = (match (@searchApi String Telemetry.initial
            (Descriptor.timeout ⟨"q", 5, some "us", some "en", false, 30⟩) .timeout).1 with
         | .typed (.success doc) =>
             (descriptorKey ⟨"q", 5, some "us", some "en", false, 30⟩, doc) :: []
         | _ => []) :=
  successIffCacheWrite [] ⟨"q", 5, some "us", some "en", false, 30⟩ Telemetry.initial .timeout rfl

/-- C8 counterexample: constructing with neither an explicit credential
nor the environment variable raises `SearcheratorAuthError` — the very
same exception class that a 401 response maps to — so the code's error
taxonomy does not distinguish a missing-credential ConstructionError
from the invalid-credential AuthError. -/
theorem missingKeyRaisesAuthErrorClass :
    searcheratorInit none none = .error (.authError missingKeyMsg)
    ∧ handleResponseStatus Telemetry.initial 401 "" = .authError "Invalid API key"
    ∧ SErr.isAuthError (.authError missingKeyMsg) = true
    ∧ SErr.isAuthError (.authError "Invalid API key") = true :=
  ⟨rfl, rfl, rfl, rfl⟩

/-- C8 amended: constructing a client with neither an explicit API
credential nor the environment-variable credential fails at
construction time, before any network activity, by raising
`SearcheratorAuthError` with the missing-credential message — the same
exception class used for the invalid-credential 401 outcome,
distinguished only by its message. -/
theorem missingCredentialConstructionFailure (api_key env_key : Option String)
    (h : initApiKey api_key env_key = none) :
    searcheratorInit api_key env_key = .error (.authError missingKeyMsg)
    ∧ SErr.isAuthError (.authError missingKeyMsg) = true
    ∧ (missingKeyMsg == "Invalid API key") = false := by
  refine ⟨?_, rfl, by decide⟩
  unfold searcheratorInit
  rw [h]

/-- Witness for `missingCredentialConstructionFailure` at the concrete
input (no explicit key, unset environment variable). -/
theorem missingCredentialConstructionFailure_witness :
    searcheratorInit none none = .error (.authError missingKeyMsg)
    ∧ SErr.isAuthError (.authError missingKeyMsg) = true
    ∧ (missingKeyMsg == "Invalid API key") = false :=
  missingCredentialConstructionFailure none none rfl

/-- C9: while an open shared session exists, `_get_session` returns it
unchanged whatever timeout the caller passes, so the returned session
keeps the timeout it was constructed with. -/
theorem acquireIgnoresTimeoutWhenOpen (sess : Session) (t : Int) (h : sess.closed = false) :
    getSession (some sess) t = (some sess, sess)
    ∧ (getSession (some sess) t).2.timeoutS = sess.timeoutS := by
  simp [getSession, h]

/-- Witness for `acquireIgnoresTimeoutWhenOpen`: a session created with
timeout 30 is returned unchanged by an acquire that asks for 5. -/
theorem acquireIgnoresTimeoutWhenOpen_witness :
    getSession (some ⟨30, false⟩) 5 = (some ⟨30, false⟩, ⟨30, false⟩)
    ∧ (getSession (some ⟨30, false⟩) 5).2.timeoutS = (30 : Int) :=
  acquireIgnoresTimeoutWhenOpen ⟨30, false⟩ 5 rfl

/-- C10: the cache key interpolation is not injective: two descriptors
whose identity tuples differ (in language and country) produce the same
key string, and a query served through the second descriptor is
answered with the first descriptor's cached document. -/
theorem cacheKeyCollision :
    descriptorKey ⟨"x", 5, some "c", some "a b", false, 30⟩
      = descriptorKey ⟨"x", 5, some "b c", some "a", false, 30⟩
    ∧ ((some "a b" : Option String) == some "a") = false
    ∧ @executeCached String
        [(descriptorKey ⟨"x", 5, some "c", some "a b", false, 30⟩, "docA")]
        ⟨"x", 5, some "b c", some "a", false, 30⟩ Telemetry.initial .timeout
      = (.typed (.success "docA"),
         [(descriptorKey ⟨"x", 5, some "c", some "a b", false, 30⟩, "docA")], 0) := by
  refine ⟨rfl, by decide, ?_⟩
  rfl

/-- C1: the spacing check of `search_result` runs as one indivisible
unit under the shared lock — each execution reads the timestamp the
previous one wrote, sleeps for the remainder of the minimum interval if
too little has elapsed, and overwrites the shared timestamp before
releasing the lock — so along any serialized run of executions the
wall-clock gap between consecutive `_last_request_time` updates is at
least the configured minimum interval. -/
theorem minIntervalBetweenTimestampUpdates (interval last : ℚ) (es : List SpacingExec)
    (h : traceOk interval last es) :
    gapsOk interval last (es.map SpacingExec.after) := by
  induction es generalizing last with
  | nil => trivial
  | cons e rest ih =>
      obtain ⟨he, hrest⟩ := h
      exact ⟨execOk_gap interval last e he, ih e.after hrest⟩

/-- Witness for `minIntervalBetweenTimestampUpdates`: two executions at
the default 75ms interval — the first entering at time 0 and writing
0.075 after its sleep, the second entering at 0.1, sleeping 0.05 and
writing 0.15 — keep consecutive timestamp updates at least 75ms
apart. -/
theorem minIntervalBetweenTimestampUpdates_witness :
    gapsOk minRequestInterval 0
      (([⟨0, 3 / 40⟩, ⟨1 / 10, 3 / 20⟩] : List SpacingExec).map SpacingExec.after) :=
  minIntervalBetweenTimestampUpdates minRequestInterval 0 _
    (by norm_num [traceOk, execOk, sleepFor, minRequestInterval])

/-- C4: on a miss of the external cache, an execution whose network
call classifies as a success performs exactly one network call and
stores the document; a second execution with an unchanged cache — under
the same descriptor or any descriptor with the same identity tuple,
even one with a different timeout — performs no network call and
returns the same document. -/
theorem cacheHitUsesOneNetworkCall {Doc : Type} (c : Cache Doc) (d1 d2 : Descriptor)
    (t0 t1 : Telemetry) (res res2 : RequestResult Doc) (doc : Doc)
    (hmiss : c.lookup (descriptorKey d1) = none)
    (hsucc : (searchApi t0 d1.timeout res).1 = .typed (.success doc))
    (hterm : d1.search_term = d2.search_term) (hlang : d1.language = d2.language)
    (hcountry : d1.country = d2.country) (hnum : d1.num_results = d2.num_results) :
    executeCached c d1 t0 res = (.typed (.success doc), (descriptorKey d1, doc) :: c, 1)
    ∧ executeCached ((descriptorKey d1, doc) :: c) d2 t1 res2
        = (.typed (.success doc), (descriptorKey d1, doc) :: c, 0) := by
  have hkey : descriptorKey d1 = descriptorKey d2 :=
    descriptorKey_congr d1 d2 hterm hlang hcountry hnum
  constructor
  · unfold executeCached
    rw [hmiss]
    rcases hsa : searchApi t0 d1.timeout res with ⟨o, t, b⟩
    rw [hsa] at hsucc
    simp only at hsucc
    subst hsucc
    rfl
  · unfold executeCached
    have hhit : Cache.lookup ((descriptorKey d1, doc) :: c) (descriptorKey d2) = some doc := by
      simp [Cache.lookup, List.lookup, ← hkey]
    rw [hhit]

/-- Witness for `cacheHitUsesOneNetworkCall`: a miss followed by a
successful 200 response caches the document, and a repeat under an
identity-equal descriptor with a different timeout is served from the
cache with no network call. -/
theorem cacheHitUsesOneNetworkCall_witness :
    @executeCached String [] ⟨"q", 5, some "us", some "en", false, 30⟩
        Telemetry.initial (.response ⟨200, ⟨"", "", ""⟩, .parsed "D", .ok ""⟩)
      = (.typed (.success "D"),
         [(descriptorKey ⟨"q", 5, some "us", some "en", false, 30⟩, "D")], 1)
    ∧ @executeCached String
        [(descriptorKey ⟨"q", 5, some "us", some "en", false, 30⟩, "D")]
        ⟨"q", 5, some "us", some "en", false, 60⟩ Telemetry.initial .timeout
      = (.typed (.success "D"),
         [(descriptorKey ⟨"q", 5, some "us", some "en", false, 30⟩, "D")], 0) :=
  cacheHitUsesOneNetworkCall [] ⟨"q", 5, some "us", some "en", false, 30⟩
    ⟨"q", 5, some "us", some "en", false, 60⟩ Telemetry.initial Telemetry.initial
    (.response ⟨200, ⟨"", "", ""⟩, .parsed "D", .ok ""⟩) .timeout "D" rfl rfl rfl rfl rfl rfl

/-- C7: shutdown of the shared session is idempotent — from any
reachable state, closing twice does not fail and leaves the shared
reference cleared, closing with no session ever created is a no-op —
and the next acquire after a shutdown transparently creates a fresh
open session with the caller's timeout instead of failing. -/
theorem shutdownIdempotent (s : Option Session) (t : Int) (hs : ReachableSession s) :
    closeSession (closeSession s) = none
    ∧ closeSession (none : Option Session) = none
    ∧ getSession (closeSession s) t = (some ⟨t, false⟩, ⟨t, false⟩) := by
  rcases reachableSession_shape s hs with h0 | ⟨t0, h0⟩ <;> subst h0
  · exact ⟨rfl, rfl, rfl⟩
  · exact ⟨rfl, rfl, rfl⟩

/-- Witness for `shutdownIdempotent` at the reachable state holding the
session a first acquire with timeout 30 created. -/
theorem shutdownIdempotent_witness :
    closeSession (closeSession (some ⟨30, false⟩)) = none
    ∧ closeSession (none : Option Session) = none
    ∧ getSession (closeSession (some ⟨30, false⟩)) 7 = (some ⟨7, false⟩, ⟨7, false⟩) :=
  shutdownIdempotent (some ⟨30, false⟩) 7
    (ReachableSession.get none 30 ReachableSession.init)

/-- C3 counterexample: the six fields are not parsed independently.
With `X-RateLimit-Limit: abc` and the well-formed
`X-RateLimit-Remaining: 5`, the `ValueError` on the limit field aborts
the whole parse, so the remaining field is left absent even though its
value parses, while the spec's independent parse stores 5. -/
theorem headerParseNotIndependent :
    parseRateLimitHeaders Telemetry.initial ⟨"abc", "5", ""⟩ = Telemetry.initial
    ∧ (parseRateLimitHeadersIndependent Telemetry.initial
          ⟨"abc", "5", ""⟩).rate_remaining_per_second = some 5 :=
  ⟨rfl, rfl⟩

/-- C3 amended: header parsing is total — it returns without raising
for every headers value, absent or empty values are left absent — but
the six fields are parsed in a fixed order inside one exception
handler: when no field's value is malformed the result agrees with the
per-field independent parse, and the first malformed value aborts the
parse, leaving that field and every later field unchanged. -/
theorem headerParseShortCircuit (t0 : Telemetry) (h : Headers) :
    (firstParseFailure h = none →
       parseRateLimitHeaders t0 h = parseRateLimitHeadersIndependent t0 h)
    ∧ (∀ p : Fin 6, firstParseFailure h = some p →
         ∀ j : Fin 6, p ≤ j →
           telemetryField (parseRateLimitHeaders t0 h) j = telemetryField t0 j) := by
  rcases e0 : parsePart (pySplit h.rateLimitLimit) 0 with u0 | v0
  · have hres : parseRateLimitHeaders t0 h = t0 := by
      simp [parseRateLimitHeaders, e0]
    have hff : firstParseFailure h = some 0 := by
      simp [firstParseFailure, parseFailsAt, fieldSource, e0]
    refine ⟨fun hnone => ?_, fun p hp j hj => ?_⟩
    · rw [hff] at hnone; cases hnone
    · rw [hres]
  · rcases e1 : parsePart (pySplit h.rateLimitLimit) 1 with u1 | v1
    · have hres : parseRateLimitHeaders t0 h
          = ⟨v0, t0.rate_limit_per_month, t0.rate_remaining_per_second,
             t0.rate_remaining_per_month, t0.rate_reset_per_second,
             t0.rate_reset_per_month⟩ := by
        simp [parseRateLimitHeaders, e0, e1]
      have hff : firstParseFailure h = some 1 := by
        simp [firstParseFailure, parseFailsAt, fieldSource, e0, e1]
      refine ⟨fun hnone => ?_, fun p hp j hj => ?_⟩
      · rw [hff] at hnone; cases hnone
      · rw [hff] at hp
        injection hp with hp
        subst hp
        rw [hres]
        fin_cases j
        · exact absurd hj (by decide)
        · rfl
        · rfl
        · rfl
        · rfl
        · rfl
    · rcases e2 : parsePart (pySplit h.rateLimitRemaining) 0 with u2 | v2
      · have hres : parseRateLimitHeaders t0 h
            = ⟨v0, v1, t0.rate_remaining_per_second, t0.rate_remaining_per_month,
               t0.rate_reset_per_second, t0.rate_reset_per_month⟩ := by
          simp [parseRateLimitHeaders, e0, e1, e2]
        have hff : firstParseFailure h = some 2 := by
          simp [firstParseFailure, parseFailsAt, fieldSource, e0, e1, e2]
        refine ⟨fun hnone => ?_, fun p hp j hj => ?_⟩
        · rw [hff] at hnone; cases hnone
        · rw [hff] at hp
          injection hp with hp
          subst hp
          rw [hres]
          fin_cases j
          · exact absurd hj (by decide)
          · exact absurd hj (by decide)
          · rfl
          · rfl
          · rfl
          · rfl
      · rcases e3 : parsePart (pySplit h.rateLimitRemaining) 1 with u3 | v3
        · have hres : parseRateLimitHeaders t0 h
              = ⟨v0, v1, v2, t0.rate_remaining_per_month,
                 t0.rate_reset_per_second, t0.rate_reset_per_month⟩ := by
            simp [parseRateLimitHeaders, e0, e1, e2, e3]
          have hff : firstParseFailure h = some 3 := by
            simp [firstParseFailure, parseFailsAt, fieldSource, e0, e1, e2, e3]
          refine ⟨fun hnone => ?_, fun p hp j hj => ?_⟩
          · rw [hff] at hnone; cases hnone
          · rw [hff] at hp
            injection hp with hp
            subst hp
            rw [hres]
            fin_cases j
            · exact absurd hj (by decide)
            · exact absurd hj (by decide)
            · exact absurd hj (by decide)
            · rfl
            · rfl
            · rfl
        · rcases e4 : parsePart (pySplit h.rateLimitReset) 0 with u4 | v4
          · have hres : parseRateLimitHeaders t0 h
                = ⟨v0, v1, v2, v3, t0.rate_reset_per_second, t0.rate_reset_per_month⟩ := by
              simp [parseRateLimitHeaders, e0, e1, e2, e3, e4]
            have hff : firstParseFailure h = some 4 := by
              simp [firstParseFailure, parseFailsAt, fieldSource, e0, e1, e2, e3, e4]
            refine ⟨fun hnone => ?_, fun p hp j hj => ?_⟩
            · rw [hff] at hnone; cases hnone
            · rw [hff] at hp
              injection hp with hp
              subst hp
              rw [hres]
              fin_cases j
              · exact absurd hj (by decide)
              · exact absurd hj (by decide)
              · exact absurd hj (by decide)
              · exact absurd hj (by decide)
              · rfl
              · rfl
          · rcases e5 : parsePart (pySplit h.rateLimitReset) 1 with u5 | v5
            · have hres : parseRateLimitHeaders t0 h
                  = ⟨v0, v1, v2, v3, v4, t0.rate_reset_per_month⟩ := by
                simp [parseRateLimitHeaders, e0, e1, e2, e3, e4, e5]
              have hff : firstParseFailure h = some 5 := by
                simp [firstParseFailure, parseFailsAt, fieldSource, e0, e1, e2, e3, e4, e5]
              refine ⟨fun hnone => ?_, fun p hp j hj => ?_⟩
              · rw [hff] at hnone; cases hnone
              · rw [hff] at hp
                injection hp with hp
                subst hp
                rw [hres]
                fin_cases j
                · exact absurd hj (by decide)
                · exact absurd hj (by decide)
                · exact absurd hj (by decide)
                · exact absurd hj (by decide)
                · exact absurd hj (by decide)
                · rfl
            · have hres : parseRateLimitHeaders t0 h = ⟨v0, v1, v2, v3, v4, v5⟩ := by
                simp [parseRateLimitHeaders, e0, e1, e2, e3, e4, e5]
              have hindep : parseRateLimitHeadersIndependent t0 h
                  = ⟨v0, v1, v2, v3, v4, v5⟩ := by
                simp [parseRateLimitHeadersIndependent, e0, e1, e2, e3, e4, e5]
              have hff : firstParseFailure h = none := by
                simp [firstParseFailure, parseFailsAt, fieldSource, e0, e1, e2, e3, e4, e5]
              refine ⟨fun _ => ?_, fun p hp j hj => ?_⟩
              · rw [hres, hindep]
              · rw [hff] at hp; cases hp

/-- Witness for `headerParseShortCircuit`: on well-formed headers the
parse agrees with the independent one, and on the counterexample
headers (malformed limit) every field — in particular the remaining
field — is left as it was. -/
theorem headerParseShortCircuit_witness :
    parseRateLimitHeaders Telemetry.initial ⟨"15, 10000", "14, 9999", "1, 3600"⟩
      = parseRateLimitHeadersIndependent Telemetry.initial ⟨"15, 10000", "14, 9999", "1, 3600"⟩
    ∧ telemetryField (parseRateLimitHeaders Telemetry.initial ⟨"abc", "5", ""⟩) 2
      = telemetryField Telemetry.initial 2 :=
  ⟨(headerParseShortCircuit Telemetry.initial ⟨"15, 10000", "14, 9999", "1, 3600"⟩).1 rfl,
   (headerParseShortCircuit Telemetry.initial ⟨"abc", "5", ""⟩).2 0 rfl 2 (by decide)⟩

end Searcherator
